import Mathlib

set_option maxRecDepth 100000

/-!
Verification of the `river` repository (`src/river/get_level.py`) against its
natural-language specification.

The Python module is shallowly embedded: JSON values become an inductive type,
the network becomes an oracle `Net : String → HTTPResult` mapping a request URL
to its outcome, Python exceptions become the inductive `PyErr`, and each
function returns, besides its `Except PyErr` result, the list of URLs it
requested (in order), so that "before any network call" is the statement that
this list is empty.
-/

set_option autoImplicit false

namespace River

/-- A JSON value as produced by `response.json()`: object keys are strings. -/
inductive JSON where
  | null
  | bool (b : Bool)
  | num (n : Int)
  | str (s : String)
  | arr (xs : List JSON)
  | obj (kvs : List (String × JSON))

mutual

/-- Structural equality test on JSON values. -/
def JSON.beq : JSON → JSON → Bool
  | .null, .null => true
  | .bool a, .bool b => a == b
  | .num a, .num b => a == b
  | .str a, .str b => a == b
  | .arr a, .arr b => JSON.beqList a b
  | .obj a, .obj b => JSON.beqObj a b
  | _, _ => false

/-- Elementwise equality test on JSON lists. -/
def JSON.beqList : List JSON → List JSON → Bool
  | [], [] => true
  | a :: as, b :: bs => JSON.beq a b && JSON.beqList as bs
  | _, _ => false

/-- Entrywise equality test on JSON object entry lists. -/
def JSON.beqObj : List (String × JSON) → List (String × JSON) → Bool
  | [], [] => true
  | kv :: as, kw :: bs =>
      kv.1 == kw.1 && JSON.beq kv.2 kw.2 && JSON.beqObj as bs
  | _, _ => false

end

instance : BEq JSON := ⟨JSON.beq⟩

/-- Python exceptions that the embedded code can raise, by kind.
`lookupError` carries the message of an explicitly raised `LookupError`;
`httpError` models `requests.HTTPError` from `raise_for_status`;
`transportError` models a `requests` connection-level exception;
`pandasError` models a `ValueError`/`TypeError` raised inside pandas. -/
inductive PyErr where
  | valueError (msg : String)
  | typeError (msg : String)
  | lookupError (msg : String)
  | keyError (key : String)
  | attributeError (attr : String)
  | httpError (code : Nat)
  | transportError (msg : String)
  | pandasError (msg : String)
deriving DecidableEq, Repr

/-- In Python, `KeyError` (and `IndexError`) are subclasses of `LookupError`,
so an `except LookupError` clause catches them as well. -/
def isLookupError : PyErr → Bool
  | .lookupError _ => true
  | .keyError _ => true
  | _ => false

/-- Outcome of one HTTP GET: either a transport-level failure (a `requests`
exception) or a status code with a parsed JSON body. -/
inductive HTTPResult where
  | transportError (msg : String)
  | status (code : Nat) (body : JSON)

/-- The network oracle: what each URL returns when fetched. -/
def Net : Type := String → HTTPResult

/-- `response.raise_for_status()` raises `requests.HTTPError` for 4xx/5xx
status codes; a transport failure has already been raised by `get` itself. -/
def raise_for_status (r : HTTPResult) : Except PyErr JSON :=
  match r with
  | .transportError m => .error (.transportError m)
  | .status code body =>
      if 400 ≤ code ∧ code < 600 then .error (.httpError code) else .ok body

/-! ### Small pieces of Python semantics used by the module -/

/-- Lookup in a Python dict built by successive insertion: a later duplicate
key overwrites an earlier one, so subscripting returns the value of the last
matching pair. Keys here are arbitrary JSON values (`dict(zip(header, row))`). -/
def pyDictGet (d : List (JSON × JSON)) (k : JSON) : Option JSON :=
  ((d.filter (fun kv => kv.1 == k)).getLast?).map (fun kv => kv.2)

/-- Lookup in a parsed JSON object (string keys); `json.loads` also keeps the
last value for a duplicated key. -/
def pyObjGet (kvs : List (String × JSON)) (k : String) : Option JSON :=
  ((kvs.filter (fun kv => kv.1 == k)).getLast?).map (fun kv => kv.2)

/-- Python `len(...)`: defined for sized values (`str`, `list`, `dict`),
a `TypeError` otherwise. For a dict, duplicated keys count once. -/
def pyLen : JSON → Except PyErr Nat
  | .str s => .ok s.length
  | .arr xs => .ok xs.length
  | .obj kvs => .ok (kvs.map Prod.fst).dedup.length
  | _ => .error (.typeError "object has no len")

/-- Iterating a sized Python value, as `zip` does: a string yields its
characters, a list its elements, a dict its keys (first-occurrence order). -/
def pyIter : JSON → List JSON
  | .str s => s.data.map (fun c => JSON.str (String.singleton c))
  | .arr xs => xs
  | .obj kvs => ((kvs.map Prod.fst).dedup).map JSON.str
  | _ => []

/-- Single-quote character, used by Python `repr` of strings. -/
def sq : String := String.singleton (Char.ofNat 39)

mutual

/-- Python `repr` of a JSON-shaped value (used by `str` on containers). -/
def pyRepr : JSON → String
  | .null => "None"
  | .bool true => "True"
  | .bool false => "False"
  | .num n => toString n
  | .str s => sq ++ s ++ sq
  | .arr xs => "[" ++ pyReprList xs ++ "]"
  | .obj kvs => "\x7b" ++ pyReprObj kvs ++ "\x7d"

/-- Comma-separated `repr`s of list elements. -/
def pyReprList : List JSON → String
  | [] => ""
  | [x] => pyRepr x
  | x :: xs => pyRepr x ++ ", " ++ pyReprList xs

/-- Comma-separated `repr`s of dict entries. -/
def pyReprObj : List (String × JSON) → String
  | [] => ""
  | [kv] => sq ++ kv.1 ++ sq ++ ": " ++ pyRepr kv.2
  | kv :: kvs => sq ++ kv.1 ++ sq ++ ": " ++ pyRepr kv.2 ++ ", " ++ pyReprObj kvs

end

/-- Python `str(...)` as used by f-string interpolation. -/
def pyStr : JSON → String
  | .str s => s
  | v => pyRepr v

/-! ### `urllib.parse.quote_plus` -/

/-- UTF-8 encoding of one character, as a list of byte values. -/
def utf8Bytes (c : Char) : List Nat :=
  let n := c.toNat
  if n < 128 then [n]
  else if n < 2048 then [192 + n / 64, 128 + n % 64]
  else if n < 65536 then [224 + n / 4096, 128 + (n / 64) % 64, 128 + n % 64]
  else [240 + n / 262144, 128 + (n / 4096) % 64, 128 + (n / 64) % 64, 128 + n % 64]

/-- Uppercase hex digit for a value below 16. -/
def hexDigit (n : Nat) : Char :=
  if n < 10 then Char.ofNat (48 + n) else Char.ofNat (55 + n)

/-- Percent-encoding of one byte, e.g. 47 ↦ "%2F". -/
def pctByte (n : Nat) : String :=
  "%" ++ String.singleton (hexDigit (n / 16)) ++ String.singleton (hexDigit (n % 16))

/-- Characters `quote_plus` leaves unescaped: letters, digits, `_.-~`. -/
def isUrlSafe (c : Char) : Bool :=
  c.isAlphanum || c == Char.ofNat 95 || c == Char.ofNat 46 ||
    c == Char.ofNat 45 || c == Char.ofNat 126

/-- `urllib.parse.quote_plus`: spaces become `+`, unsafe characters are
percent-encoded byte-by-byte (UTF-8), safe characters pass through. -/
def quote_plus (s : String) : String :=
  s.data.foldl
    (fun acc c =>
      if c == Char.ofNat 32 then acc ++ "+"
      else if isUrlSafe c then acc ++ String.singleton c
      else acc ++ String.join ((utf8Bytes c).map pctByte))
    ""

/-! ### Module constants and query URLs (`get_level.py` top and f-strings) -/

def apiRoot : String := "https://timeseries.sepa.org.uk/KiWIS/KiWIS"

def defaultReturnFields : String := "Timestamp,Value,Quality Code"

/-- The shared station-list query prefix (`base_query` in the source). -/
def stationBaseQuery : String :=
  apiRoot ++ "?service=kisters&type=queryServices&datasource=0" ++
    "&request=getStationList&object_type=General&format=json" ++
    "&returnfields=station_no,station_name,river_name"

/-- Station-list query filtered by `station_name` (`qry_station`, first try). -/
def qryStationName (name : String) : String :=
  stationBaseQuery ++ "&station_name=" ++ quote_plus name

/-- Station-list query filtered by `river_name` (the fallback `qry_station`). -/
def qryRiverName (name : String) : String :=
  stationBaseQuery ++ "&river_name=" ++ quote_plus name

/-- The values query (`qry_values`): `ts_path` is built from the namespace
prefix `1`, the station number, the parameter and the resolution, and the
window runs from `date` to `date`T23:59:59. -/
def qryValues (sta_no parameter resolution dateS : String) : String :=
  apiRoot ++ "?service=kisters&type=queryServices&datasource=0" ++
    "&request=getTimeseriesValues&ts_path=" ++
    quote_plus ("1/" ++ sta_no ++ "/" ++ parameter ++ "/" ++ resolution) ++
    "&from=" ++ dateS ++ "&to=" ++ dateS ++ "T23:59:59" ++
    "&returnfields=" ++ quote_plus defaultReturnFields ++ "&format=json"

/-! ### `_first_hit` -/

def noMatchMsg : String := "No matching records returned by SEPA."

def rowMismatchMsg : String := "Malformed response from SEPA (row/header mismatch)."

/-- The pure part of `_first_hit`, applied to the parsed JSON body.
The source checks `not data or not isinstance(data, list) or len(data) < 2
or not isinstance(data[0], list)` — on JSON values that is exactly "not a
list holding at least two elements whose first element is a list" (an empty
list is both falsy and shorter than two). Then it compares `len(first_row)`
with `len(header)` (a `TypeError` if `first_row` has no length) and returns
`dict(zip(header, first_row))`. -/
def decode_first_hit (data : JSON) : Except PyErr (List (JSON × JSON)) :=
  match data with
  | .arr (.arr header :: first_row :: _) =>
      match pyLen first_row with
      | .error e => .error e
      | .ok n =>
          if n ≠ header.length then .error (.lookupError rowMismatchMsg)
          else .ok (header.zip (pyIter first_row))
  | _ => .error (.lookupError noMatchMsg)

/-- `_first_hit(url)`: one GET (always issued, on `url`), `raise_for_status`,
then decode. The request log of a call to this helper is always `[url]`. -/
def first_hit (net : Net) (url : String) : Except PyErr (List (JSON × JSON)) :=
  match raise_for_status (net url) with
  | .error e => .error e
  | .ok data => decode_first_hit data

/-! ### The `date` argument -/

/-- The `date` parameter of `get_river_level` is annotated `str | datetime.date`.
A `datetime.date` (or `datetime.datetime`, a subclass) is modelled by its
`isoformat()` string. -/
inductive DateArg where
  | str (s : String)
  | dateObj (iso : String)
  | datetimeObj (iso : String)

/-- The argument normalization at the top of `get_river_level`:
`isinstance(date, _dt.date) and not isinstance(date, _dt.datetime)` converts a
pure date object to its ISO string; a `datetime.datetime` is left as is, and
the following membership test `"T" in date` then raises
`TypeError: argument of type datetime.datetime is not iterable`. -/
def normalizeDateArg : DateArg → Except PyErr String
  | .str s => .ok s
  | .dateObj iso => .ok iso
  | .datetimeObj _ =>
      .error (.typeError "argument of type datetime.datetime is not iterable")

/-! ### pandas operations used by the values path -/

/-- The DataFrame built by `pd.DataFrame(rec["data"], columns=cols)`:
column labels plus data rows. -/
structure Frame where
  columns : List String
  data : List (List JSON)

/-- The final result: after `set_index("Timestamp")` the frame is indexed by
the converted timestamps (kept here in their ISO text form). -/
structure IndexedFrame where
  index : List String
  columns : List String
  data : List (List JSON)

/-- `df.empty`: true when either axis has length zero. -/
def Frame.isEmptyFrame (f : Frame) : Bool :=
  f.data.isEmpty || f.columns.isEmpty

/-- `pd.DataFrame(data, columns=cols)` for the list-of-lists shape the values
endpoint returns: every row must be a list whose length matches `cols`,
otherwise pandas raises. Shapes outside the upstream list-of-lists contract
are modelled as the pandas constructor error. -/
def mkFrame (data : JSON) (cols : List String) : Except PyErr Frame :=
  match data with
  | .arr rows =>
      match rows.mapM (fun r => match r with | .arr cells => some cells | _ => none) with
      | none => .error (.pandasError "DataFrame constructor not properly called")
      | some rs =>
          if rs.all (fun cells => cells.length == cols.length) then
            .ok ⟨cols, rs⟩
          else .error (.pandasError "columns passed, data had a different shape")
  | _ => .error (.pandasError "DataFrame constructor not properly called")

/-- `pd.to_datetime(cell, utc=True)` on one cell: a timestamp string is kept
in its ISO text form (for the fixed `YYYY-MM-DDTHH:MM:SS` layout the
chronological order is the lexicographic order of that text); a cell that is
not a timestamp string is modelled as a conversion failure. -/
def to_datetime_utc : JSON → Except PyErr String
  | .str s => .ok s
  | _ => .error (.pandasError "to_datetime could not convert cell")

/-- Column-wise `pd.to_datetime`: converts each cell, failing if any cell
fails. -/
def to_datetime_column : List JSON → Except PyErr (List String)
  | [] => .ok []
  | c :: cs =>
      match to_datetime_utc c with
      | .error e => .error e
      | .ok t =>
          match to_datetime_column cs with
          | .error e => .error e
          | .ok ts => .ok (t :: ts)

/-- `df["Timestamp"] = pd.to_datetime(df["Timestamp"], utc=True)` followed by
`df.set_index("Timestamp", inplace=True)`: selecting a missing column raises
`KeyError`; otherwise the converted column becomes the index and leaves the
remaining columns. -/
def setIndexTimestamp (f : Frame) : Except PyErr IndexedFrame :=
  match f.columns.findIdx? (fun c => c == "Timestamp") with
  | none => .error (.keyError "Timestamp")
  | some i =>
      match to_datetime_column (f.data.map (fun r => r.getD i JSON.null)) with
      | .error e => .error e
      | .ok ts => .ok ⟨ts, f.columns.eraseIdx i, f.data.map (fun r => r.eraseIdx i)⟩

/-! ### The values fetch-and-parse stage of `get_river_level` -/

/-- Helper for `str.split(",")`: cut a character list at every comma,
keeping empty pieces (Python semantics: `"a,,b".split(",") == ["a","","b"]`,
`"".split(",") == [""]`). -/
def splitCommaChars : List Char → List (List Char)
  | [] => [[]]
  | c :: cs =>
      match splitCommaChars cs with
      | [] => [[c]]
      | g :: gs => if c == Char.ofNat 44 then [] :: g :: gs else (c :: g) :: gs

/-- Python `s.split(",")`. -/
def pySplitComma (s : String) : List String :=
  (splitCommaChars s.data).map (fun cs => String.mk cs)

/-- Python `s.strip()`: drop whitespace from both ends. -/
def pyStrip (s : String) : String :=
  String.mk (((s.data.dropWhile Char.isWhitespace).reverse.dropWhile
    Char.isWhitespace).reverse)

def malformedValuesMsg (name dateS : String) : String :=
  "Malformed response fetching values for " ++ name ++ " on " ++ dateS ++ "."

def noDataValuesMsg (name dateS : String) : String :=
  "No level values found for " ++ name ++ " on " ++ dateS ++ "."

/-- The structural check on the values body:
`not raw or not isinstance(raw, list) or not isinstance(raw[0], dict) or
"data" not in raw[0]` — on JSON values that passes exactly when the body is a
non-empty list whose first element is an object carrying a `data` key (an
empty list is falsy). On success, returns `rec["data"]` and the record. -/
def valuesRec (raw : JSON) : Option (JSON × List (String × JSON)) :=
  match raw with
  | .arr (.obj kvs :: _) =>
      match pyObjGet kvs "data" with
      | some dv => some (dv, kvs)
      | none => none
  | _ => none

/-- Lines 113–137 of `get_level.py`: validate the parsed values body, split
`rec["columns"]` (a `KeyError` when absent, an `AttributeError` when it is not
a string), build the DataFrame, reject an empty day, convert and index the
`Timestamp` column. -/
def parse_values (name dateS : String) (raw : JSON) : Except PyErr IndexedFrame :=
  match valuesRec raw with
  | none => .error (.lookupError (malformedValuesMsg name dateS))
  | some (dv, kvs) =>
      match pyObjGet kvs "columns" with
      | none => .error (.keyError "columns")
      | some (.str cstr) =>
          match mkFrame dv ((pySplitComma cstr).map pyStrip) with
          | .error e => .error e
          | .ok df =>
              if df.isEmptyFrame then
                .error (.lookupError (noDataValuesMsg name dateS))
              else setIndexTimestamp df
      | some _ => .error (.attributeError "split")

/-! ### `get_river_level` -/

/-- The continuation of `get_river_level` once a station record is resolved:
read `station["station_no"]`, build `ts_path` and the values query, issue the
GET (appended to the request log), and parse. -/
def afterStation (net : Net) (name dateS parameter resolution : String)
    (station : List (JSON × JSON)) (log : List String) :
    Except PyErr IndexedFrame × List String :=
  match pyDictGet station (JSON.str "station_no") with
  | none => (.error (.keyError "station_no"), log)
  | some v =>
      match raise_for_status (net (qryValues (pyStr v) parameter resolution dateS)) with
      | .error e =>
          (.error e, log ++ [qryValues (pyStr v) parameter resolution dateS])
      | .ok raw =>
          (parse_values name dateS raw,
            log ++ [qryValues (pyStr v) parameter resolution dateS])

/-- `get_river_level(name, date, parameter, resolution)` over the network
oracle `net`. The second component lists the URLs requested, in order: the
`station_name`-filtered query, then (only after a `LookupError`) the
`river_name`-filtered fallback, then the values query. -/
def get_river_level (net : Net) (name : String) (date : DateArg)
    (parameter resolution : String) : Except PyErr IndexedFrame × List String :=
  match normalizeDateArg date with
  | .error e => (.error e, [])
  | .ok dateS =>
      if dateS.data.contains 'T' then
        (.error (.valueError "Pass a *date* (YYYY-MM-DD), not a full timestamp."), [])
      else
        match first_hit net (qryStationName name) with
        | .ok station =>
            afterStation net name dateS parameter resolution station
              [qryStationName name]
        | .error e =>
            if isLookupError e then
              match first_hit net (qryRiverName name) with
              | .ok station =>
                  afterStation net name dateS parameter resolution station
                    [qryStationName name, qryRiverName name]
              | .error e2 =>
                  (.error e2, [qryStationName name, qryRiverName name])
            else (.error e, [qryStationName name])

/-! ### Spec-side predicates

These small definitions transcribe the *spec's words* for the failure
conditions, to be compared with what the embedded code does. -/

/-- Spec side: "the body is a (JSON) list". -/
def specIsList : JSON → Bool
  | .arr _ => true
  | _ => false

/-- Spec side: "the body is empty" (the empty list). -/
def specIsEmptyList : JSON → Bool
  | .arr [] => true
  | _ => false

/-- Spec side: the number of elements of a list body. -/
def specListLen : JSON → Nat
  | .arr xs => xs.length
  | _ => 0

/-- Spec side: "its first element is a list". -/
def specFirstIsList : JSON → Bool
  | .arr (.arr _ :: _) => true
  | _ => false

/-- Spec side: "its first element is a record (dict)". -/
def specFirstIsDict : JSON → Bool
  | .arr (.obj _ :: _) => true
  | _ => false

/-- Spec side: "that record carries a `data` field". -/
def specFirstHasData : JSON → Bool
  | .arr (.obj kvs :: _) => (pyObjGet kvs "data").isSome
  | _ => false

/-- The C5 "no matching records" condition, as the claim words it: the body
is empty, not a list, has fewer than two elements, or its first element is
not a list. -/
def c5NoMatchCond (d : JSON) : Bool :=
  specIsEmptyList d || !specIsList d || decide (specListLen d < 2) || !specFirstIsList d

/-- The C6 "malformed response" condition, as the claim words it: the body
is empty, not a list, its first element is not a record, or that record
lacks a `data` field. -/
def c6MalformedCond (raw : JSON) : Bool :=
  specIsEmptyList raw || !specIsList raw || !specFirstIsDict raw || !specFirstHasData raw

/-- The `Timestamp` column of the upstream values body, read off in response
order exactly where the parsing pipeline reads it (same record, same column
split, same cell extraction), but with no reordering and no filtering. Used
to state that a successful call returns this column as its index unchanged. -/
def rawTimestamps (raw : JSON) : Option (List String) :=
  match valuesRec raw with
  | none => none
  | some (dv, kvs) =>
      match pyObjGet kvs "columns" with
      | none => none
      | some (.str cstr) =>
          match mkFrame dv ((pySplitComma cstr).map pyStrip) with
          | .error _ => none
          | .ok df =>
              match df.columns.findIdx? (fun c => c == "Timestamp") with
              | none => none
              | some i =>
                  match to_datetime_column (df.data.map (fun r => r.getD i JSON.null)) with
                  | .error _ => none
                  | .ok ts => some ts
      | some _ => none

/-! ### Concrete response bodies and network oracles for witnesses and
counterexamples -/

/-- A well-formed station-list body with one record. -/
def c2stationBody : JSON := .arr [
  .arr [.str "station_no", .str "station_name", .str "river_name"],
  .arr [.str "15006", .str "Pitnacree", .str "Tay"]]

/-- A values body whose rows are out of chronological order, the second one
lying outside the requested day. -/
def c2valuesBody : JSON := .arr [.obj [
  ("columns", .str "Timestamp,Value,Quality Code"),
  ("data", .arr [
      .arr [.str "2024-01-01T10:00:00", .num 12, .str "G"],
      .arr [.str "2023-06-15T12:00:00", .num 11, .str "G"]])]]

/-- Oracle for C2: a good station list, then the out-of-order values body. -/
def c2net : Net := fun url =>
  if url = qryStationName "Pitnacree" then .status 200 c2stationBody
  else .status 200 c2valuesBody

/-- A values body that passes the structural check (`data` present) but has
no `columns` field. -/
def c3rawNoColumns : JSON := .arr [.obj [("data", .arr [])]]

/-- A values body with a proper `columns` string and an empty `data` array. -/
def c3rawEmptyData : JSON := .arr [.obj [
  ("columns", .str "Timestamp,Value,Quality Code"),
  ("data", .arr [])]]

/-- A well-ordered, in-window values body. -/
def c3valuesBody : JSON := .arr [.obj [
  ("columns", .str "Timestamp,Value,Quality Code"),
  ("data", .arr [
      .arr [.str "2024-01-01T00:00:00", .num 10, .str "G"],
      .arr [.str "2024-01-01T00:15:00", .num 11, .str "G"]])]]

/-- A station-list body for C3's witness. -/
def c3stationBody : JSON := .arr [
  .arr [.str "station_no", .str "station_name", .str "river_name"],
  .arr [.str "15006", .str "Pitnacree", .str "Tay"]]

/-- Oracle for C3's witness: good station list, then good values. -/
def c3net : Net := fun url =>
  if url = qryStationName "Pitnacree" then .status 200 c3stationBody
  else .status 200 c3valuesBody

/-- A station-list body for C4's witness fallback hit. -/
def c4stationBody : JSON := .arr [
  .arr [.str "station_no", .str "station_name", .str "river_name"],
  .arr [.str "15006", .str "Pitnacree", .str "Tay"]]

/-- The station record decoded from `c4stationBody`. -/
def c4station : List (JSON × JSON) := [
  (.str "station_no", .str "15006"),
  (.str "station_name", .str "Pitnacree"),
  (.str "river_name", .str "Tay")]

/-- Oracle for C4: the `station_name` query finds nothing (empty list body),
the `river_name` fallback finds a record, the values query succeeds. -/
def c4net : Net := fun url =>
  if url = qryStationName "Tay" then .status 200 (.arr [])
  else if url = qryRiverName "Tay" then .status 200 c4stationBody
  else .status 200 c3valuesBody

/-- Oracle for C4's both-queries-fail scenario: every station query returns
an empty list body. -/
def c4netBothFail : Net := fun _ => .status 200 (.arr [])

/-- Oracle for C7: the very first request already fails at transport level. -/
def c7net : Net := fun _ => .transportError "connection refused"

/-- A station-list body for C7's values-request scenario. -/
def c7stationBody : JSON := .arr [
  .arr [.str "station_no", .str "station_name", .str "river_name"],
  .arr [.str "15006", .str "Pitnacree", .str "Tay"]]

/-- The station record decoded from `c7stationBody`. -/
def c7station : List (JSON × JSON) := [
  (.str "station_no", .str "15006"),
  (.str "station_name", .str "Pitnacree"),
  (.str "river_name", .str "Tay")]

/-- Oracle for C7: station resolution succeeds on the first try, the values
request dies at transport level. -/
def c7netValuesDown : Net := fun url =>
  if url = qryStationName "Pitnacree" then .status 200 c7stationBody
  else .transportError "connection reset"

/-- Oracle for C7: the `station_name` query finds nothing, and the
`river_name` fallback query dies at transport level. -/
def c7netFallbackDown : Net := fun url =>
  if url = qryStationName "Pitnacree" then .status 200 (.arr [])
  else .transportError "connection refused"

/-- Oracle for C7: station resolution succeeds on the first try, the values
request comes back with a 503 status. -/
def c7netValues503 : Net := fun url =>
  if url = qryStationName "Pitnacree" then .status 200 c7stationBody
  else .status 503 JSON.null

/-- Oracle for C7: the `station_name` query finds nothing, the `river_name`
fallback resolves the station, and the values request then dies at transport
level. -/
def c7netFallbackValuesDown : Net := fun url =>
  if url = qryStationName "Pitnacree" then .status 200 (.arr [])
  else if url = qryRiverName "Pitnacree" then .status 200 c7stationBody
  else .transportError "connection reset"

/-- A values body lacking `columns` (C9 witness, first branch). -/
def c9rawNoColumns : JSON := .arr [.obj [("data", .arr [])]]

/-- A values body whose `columns` value is a number, not a string (C9
witness, second branch). -/
def c9rawNumColumns : JSON := .arr [.obj [
  ("columns", .num 3),
  ("data", .arr [])]]

/-- A station-list body whose first data row is shorter than its header, so
`_first_hit` raises the row/header-mismatch `LookupError` (C10). -/
def c10mismatchBody : JSON := .arr [
  .arr [.str "station_no", .str "station_name"],
  .arr [.str "15006"]]

/-- Oracle for C10: every station query returns the mismatched body. -/
def c10net : Net := fun _ => .status 200 c10mismatchBody

/-- Spec side, chronological order of timestamps: for the fixed
`YYYY-MM-DDTHH:MM:SS` layout used throughout, chronological order is the
lexicographic order of the text; this executable comparison realizes it. -/
def chronLeChars : List Char → List Char → Bool
  | [], _ => true
  | _ :: _, [] => false
  | a :: as, b :: bs =>
      if a.toNat < b.toNat then true
      else if b.toNat < a.toNat then false
      else chronLeChars as bs

/-- Spec side: `a` is at or before `b` in time (lexicographic on ISO text). -/
def chronLe (a b : String) : Bool := chronLeChars a.data b.data

/-! ## Helper lemmas -/

theorem string_data_append (a b : String) : (a ++ b).data = a.data ++ b.data := rfl

theorem rowMismatch_ne_noMatch : rowMismatchMsg ≠ noMatchMsg := by decide

/-- The two `LookupError` messages of the values stage differ (first letters
N and M), for every `name` and `date`. -/
theorem noData_ne_malformed (name dateS : String) :
    noDataValuesMsg name dateS ≠ malformedValuesMsg name dateS := by
  intro h
  have hN : (noDataValuesMsg name dateS).data.head? = some (Char.ofNat 78) := rfl
  have hM : (malformedValuesMsg name dateS).data.head? = some (Char.ofNat 77) := rfl
  rw [h, hM] at hN
  exact absurd hN (by decide)


/-- A failed single-cell conversion is a pandas error. -/
theorem to_datetime_utc_err (c : JSON) (e : PyErr)
    (h : to_datetime_utc c = .error e) : ∃ m, e = .pandasError m := by
  cases c <;> simp [to_datetime_utc] at h <;> exact ⟨_, h.symm⟩

/-- Converting a column preserves its length. -/
theorem to_datetime_column_length (l : List JSON) (ts : List String)
    (h : to_datetime_column l = .ok ts) : ts.length = l.length := by
  induction l generalizing ts with
  | nil =>
      simp only [to_datetime_column, Except.ok.injEq] at h
      subst h; rfl
  | cons c cs ih =>
      simp only [to_datetime_column] at h
      rcases hc : to_datetime_utc c with e | t
      · simp only [hc] at h
        exact Except.noConfusion h
      · simp only [hc] at h
        rcases hcs : to_datetime_column cs with e | ts2
        · simp only [hcs] at h
          exact Except.noConfusion h
        · simp only [hcs, Except.ok.injEq] at h
          subst h
          simp [ih ts2 hcs]

/-- A failed column conversion is a pandas error. -/
theorem to_datetime_column_err (l : List JSON) (e : PyErr)
    (h : to_datetime_column l = .error e) : ∃ m, e = .pandasError m := by
  induction l with
  | nil => simp [to_datetime_column] at h
  | cons c cs ih =>
      simp only [to_datetime_column] at h
      rcases hc : to_datetime_utc c with e2 | t
      · simp only [hc, Except.error.injEq] at h
        subst h
        exact to_datetime_utc_err c e2 hc
      · simp only [hc] at h
        rcases hcs : to_datetime_column cs with e2 | ts2
        · simp only [hcs, Except.error.injEq] at h
          subst h
          exact ih hcs
        · simp only [hcs] at h
          exact Except.noConfusion h

/-- A failed DataFrame construction is a pandas error. -/
theorem mkFrame_err (d : JSON) (cols : List String) (e : PyErr)
    (h : mkFrame d cols = .error e) : ∃ m, e = .pandasError m := by
  unfold mkFrame at h
  cases d with
  | null => exact ⟨_, (Except.error.inj h).symm⟩
  | bool b => exact ⟨_, (Except.error.inj h).symm⟩
  | num n => exact ⟨_, (Except.error.inj h).symm⟩
  | str s => exact ⟨_, (Except.error.inj h).symm⟩
  | obj kvs => exact ⟨_, (Except.error.inj h).symm⟩
  | arr rows =>
      rcases hm : rows.mapM
          (fun r => match r with | JSON.arr cells => some cells | _ => none)
          with _ | rs
      · simp only [hm] at h
        exact ⟨_, (Except.error.inj h).symm⟩
      · simp only [hm] at h
        by_cases hall : rs.all (fun cells => cells.length == cols.length) = true
        · rw [if_pos hall] at h
          exact Except.noConfusion h
        · rw [if_neg hall] at h
          exact ⟨_, (Except.error.inj h).symm⟩

/-- A failed index conversion is a `KeyError` or a pandas error, never a
`LookupError` message. -/
theorem setIndexTimestamp_err (df : Frame) (e : PyErr)
    (h : setIndexTimestamp df = .error e) :
    (∃ k, e = .keyError k) ∨ (∃ m, e = .pandasError m) := by
  unfold setIndexTimestamp at h
  rcases hidx : df.columns.findIdx? (fun c => c == "Timestamp") with _ | i
  · simp only [hidx] at h
    exact .inl ⟨_, (Except.error.inj h).symm⟩
  · simp only [hidx] at h
    rcases htdc : to_datetime_column (df.data.map (fun r => r.getD i JSON.null))
        with e2 | ts
    · simp only [htdc, Except.error.injEq] at h
      subst h
      exact .inr (to_datetime_column_err _ _ htdc)
    · simp only [htdc] at h
      exact Except.noConfusion h

/-- The structural check of the values path fails exactly under the spec's
"malformed" condition. -/
theorem valuesRec_none_iff (raw : JSON) :
    valuesRec raw = none ↔ c6MalformedCond raw = true := by
  cases raw <;>
    simp [valuesRec, c6MalformedCond, specIsEmptyList, specIsList,
      specFirstIsDict, specFirstHasData]
  case arr xs =>
    cases xs with
    | nil => simp
    | cons x rest =>
        cases x <;>
          simp [valuesRec, c6MalformedCond, specIsEmptyList, specIsList,
            specFirstIsDict, specFirstHasData]
        case obj kvs =>
          rcases hd : pyObjGet kvs "data" with _ | dv <;> simp [hd]

/-- A successful parse never returns an empty table. -/
theorem parse_values_ok_nonempty (name dateS : String) (raw : JSON)
    (f : IndexedFrame) (h : parse_values name dateS raw = .ok f) :
    f.data ≠ [] ∧ f.index ≠ [] := by
  unfold parse_values at h
  rcases hrec : valuesRec raw with _ | ⟨dv, kvs⟩
  · simp only [hrec] at h
    exact Except.noConfusion h
  simp only [hrec] at h
  rcases hcols : pyObjGet kvs "columns" with _ | v
  · simp only [hcols] at h
    exact Except.noConfusion h
  simp only [hcols] at h
  cases v with
  | null => exact Except.noConfusion h
  | bool b => exact Except.noConfusion h
  | num n => exact Except.noConfusion h
  | arr xs => exact Except.noConfusion h
  | obj kvs2 => exact Except.noConfusion h
  | str cstr =>
      rcases hmk : mkFrame dv ((pySplitComma cstr).map pyStrip) with e | df
      · simp only [hmk] at h
        exact Except.noConfusion h
      simp only [hmk] at h
      by_cases hemp : df.isEmptyFrame = true
      · rw [if_pos hemp] at h
        exact Except.noConfusion h
      rw [if_neg hemp] at h
      have hax : ¬ (df.data = [] ∨ df.columns = []) := by
        simpa [Frame.isEmptyFrame, List.isEmpty_iff] using hemp
      unfold setIndexTimestamp at h
      rcases hidx : df.columns.findIdx? (fun c => c == "Timestamp") with _ | i
      · simp only [hidx] at h
        exact Except.noConfusion h
      simp only [hidx] at h
      rcases htdc : to_datetime_column (df.data.map (fun r => r.getD i JSON.null))
          with e2 | ts
      · simp only [htdc] at h
        exact Except.noConfusion h
      simp only [htdc, Except.ok.injEq] at h
      subst h
      refine ⟨?_, ?_⟩
      · simp only [ne_eq, List.map_eq_nil_iff]
        exact fun hd => hax (.inl hd)
      · have hlen := to_datetime_column_length _ _ htdc
        intro hts
        have hts2 : ts = [] := hts
        rw [hts2] at hlen
        simp only [List.length_nil, List.length_map] at hlen
        exact hax (.inl (List.length_eq_zero.mp hlen.symm))

/-- A successful continuation comes from a successful parse of some body. -/
theorem afterStation_ok (net : Net) (name dateS parameter resolution : String)
    (station : List (JSON × JSON)) (log log2 : List String) (f : IndexedFrame)
    (h : afterStation net name dateS parameter resolution station log =
      (.ok f, log2)) :
    ∃ raw, parse_values name dateS raw = .ok f := by
  unfold afterStation at h
  rcases hv : pyDictGet station (JSON.str "station_no") with _ | v
  · simp only [hv] at h
    simp at h
  simp only [hv] at h
  rcases hr : raise_for_status (net (qryValues (pyStr v) parameter resolution dateS))
      with e | raw
  · simp only [hr] at h
    simp at h
  · simp only [hr] at h
    simp only [Prod.mk.injEq] at h
    exact ⟨raw, h.1⟩

/-- The continuation only ever appends to the request log. -/
theorem afterStation_log (net : Net) (name dateS parameter resolution : String)
    (station : List (JSON × JSON)) (log : List String) :
    ∃ tail, (afterStation net name dateS parameter resolution station log).2 =
      log ++ tail := by
  unfold afterStation
  rcases hv : pyDictGet station (JSON.str "station_no") with _ | v
  · exact ⟨[], by simp [hv]⟩
  rcases hr : raise_for_status (net (qryValues (pyStr v) parameter resolution dateS))
      with e | raw
  · exact ⟨[qryValues (pyStr v) parameter resolution dateS], by simp [hv, hr]⟩
  · exact ⟨[qryValues (pyStr v) parameter resolution dateS], by simp [hv, hr]⟩

/-- A successful top-level call comes from a successful parse of some body. -/
theorem get_river_level_ok_parse (net : Net) (name : String) (date : DateArg)
    (parameter resolution : String) (f : IndexedFrame) (log : List String)
    (h : get_river_level net name date parameter resolution = (.ok f, log)) :
    ∃ dateS raw, parse_values name dateS raw = .ok f := by
  unfold get_river_level at h
  rcases hn : normalizeDateArg date with e | dateS
  · simp only [hn] at h
    simp at h
  simp only [hn] at h
  by_cases hT : dateS.data.contains 'T' = true
  · rw [if_pos hT] at h
    simp at h
  rw [if_neg hT] at h
  rcases h1 : first_hit net (qryStationName name) with e | station
  · simp only [h1] at h
    by_cases hl : isLookupError e = true
    · rw [if_pos hl] at h
      rcases h2 : first_hit net (qryRiverName name) with e2 | station
      · simp only [h2] at h
        simp at h
      · simp only [h2] at h
        exact ⟨dateS, afterStation_ok _ _ _ _ _ _ _ _ _ h⟩
    · rw [if_neg hl] at h
      simp at h
  · simp only [h1] at h
    exact ⟨dateS, afterStation_ok _ _ _ _ _ _ _ _ _ h⟩

/-! ## Claim theorems -/

/-- C1: for every string `date` argument containing the date/time separator
"T", `get_river_level` raises `ValueError` before issuing any network request
(the request log is empty). -/
theorem c1_time_component_rejected (net : Net) (name s parameter resolution : String)
    (h : s.data.contains 'T' = true) :
    get_river_level net name (DateArg.str s) parameter resolution =
      (.error (.valueError "Pass a *date* (YYYY-MM-DD), not a full timestamp."), []) := by
  have h2 : 'T' ∈ s.data := by simpa using h
  unfold get_river_level
  simp [normalizeDateArg, h2]

/-- Witness for C1 at the concrete timestamp-bearing string of the spec. -/
theorem c1_witness :
    get_river_level (fun _ => HTTPResult.transportError "offline") "Pitnacree"
        (DateArg.str "2024-01-01T00:00:00") "SG" "15m.Cmd" =
      (.error (.valueError "Pass a *date* (YYYY-MM-DD), not a full timestamp."), []) :=
  c1_time_component_rejected _ _ _ _ _ (by decide)

/-- C8: a `datetime.datetime` argument hits the membership test `"T" in date`
and raises `TypeError` (not the documented `ValueError`), again with no
network request issued. -/
theorem c8_datetime_raises_typeerror (net : Net) (name iso parameter resolution : String) :
    get_river_level net name (DateArg.datetimeObj iso) parameter resolution =
      (.error (.typeError "argument of type datetime.datetime is not iterable"), []) := rfl

/-- C4: when the `station_name`-filtered query fails with "no matching
records" and the `river_name`-filtered query decodes to a station record, the
resolver succeeds through the fallback and the values request is built from
that record's `station_no`; when both queries fail with "no matching
records", that failure is what the caller receives. -/
theorem c4_river_name_fallback :
    (∀ (net : Net) (name dateS parameter resolution : String)
        (station : List (JSON × JSON)) (v : JSON),
      dateS.data.contains 'T' = false →
      first_hit net (qryStationName name) = .error (.lookupError noMatchMsg) →
      first_hit net (qryRiverName name) = .ok station →
      pyDictGet station (JSON.str "station_no") = some v →
      get_river_level net name (DateArg.str dateS) parameter resolution =
          afterStation net name dateS parameter resolution station
            [qryStationName name, qryRiverName name] ∧
        (get_river_level net name (DateArg.str dateS) parameter resolution).2 =
          [qryStationName name, qryRiverName name,
            qryValues (pyStr v) parameter resolution dateS])
    ∧ (∀ (net : Net) (name dateS parameter resolution : String),
      dateS.data.contains 'T' = false →
      first_hit net (qryStationName name) = .error (.lookupError noMatchMsg) →
      first_hit net (qryRiverName name) = .error (.lookupError noMatchMsg) →
      get_river_level net name (DateArg.str dateS) parameter resolution =
        (.error (.lookupError noMatchMsg),
          [qryStationName name, qryRiverName name])) := by
  constructor
  · intro net name dateS parameter resolution station v hT h1 h2 h3
    have hT2 : 'T' ∉ dateS.data := by simpa using hT
    have h0 : get_river_level net name (DateArg.str dateS) parameter resolution =
        afterStation net name dateS parameter resolution station
          [qryStationName name, qryRiverName name] := by
      unfold get_river_level
      simp [normalizeDateArg, hT2, h1, h2, isLookupError]
    refine ⟨h0, ?_⟩
    rw [h0]
    unfold afterStation
    simp only [h3]
    rcases hr : raise_for_status (net (qryValues (pyStr v) parameter resolution dateS))
        with e | raw
    · simp [hr]
    · simp [hr]
  · intro net name dateS parameter resolution hT h1 h2
    have hT2 : 'T' ∉ dateS.data := by simpa using hT
    unfold get_river_level
    simp [normalizeDateArg, hT2, h1, h2, isLookupError]

/-- Witness for C4: the fallback scenario and the both-fail scenario at
concrete oracles. -/
theorem c4_witness :
    (get_river_level c4net "Tay" (DateArg.str "2024-01-01") "SG" "15m.Cmd").2 =
        [qryStationName "Tay", qryRiverName "Tay",
          qryValues "15006" "SG" "15m.Cmd" "2024-01-01"] ∧
      get_river_level c4netBothFail "Tay" (DateArg.str "2024-01-01") "SG" "15m.Cmd" =
        (.error (.lookupError noMatchMsg),
          [qryStationName "Tay", qryRiverName "Tay"]) :=
  ⟨(c4_river_name_fallback.1 c4net "Tay" "2024-01-01" "SG" "15m.Cmd" c4station
      (JSON.str "15006") (by decide) rfl rfl rfl).2,
    c4_river_name_fallback.2 c4netBothFail "Tay" "2024-01-01" "SG" "15m.Cmd"
      (by decide) rfl rfl⟩

/-- C7: a transport failure or a non-success (4xx/5xx) HTTP status on any of
the three outbound requests is surfaced to the caller unchanged — never
wrapped in another error kind and never retried. In `_first_hit` both kinds
re-raise as is; on the `station_name` query a non-`LookupError` failure ends
the call with no `river_name` fallback request (the log stops at that one
URL); on the `river_name` fallback query any failure is what the caller
receives; and on the values request — whether the station was resolved
directly or through the fallback — a transport failure or a 4xx/5xx status
propagates as itself. -/
theorem c7_transport_http_surfaced :
    (∀ (net : Net) (url m : String),
      net url = .transportError m →
      first_hit net url = .error (.transportError m))
    ∧ (∀ (net : Net) (url : String) (code : Nat) (body : JSON),
      400 ≤ code → code < 600 → net url = .status code body →
      first_hit net url = .error (.httpError code))
    ∧ (∀ (net : Net) (name dateS parameter resolution : String) (e : PyErr),
      dateS.data.contains 'T' = false →
      first_hit net (qryStationName name) = .error e →
      isLookupError e = false →
      get_river_level net name (DateArg.str dateS) parameter resolution =
        (.error e, [qryStationName name]))
    ∧ (∀ (net : Net) (name dateS parameter resolution : String) (e e2 : PyErr),
      dateS.data.contains 'T' = false →
      first_hit net (qryStationName name) = .error e →
      isLookupError e = true →
      first_hit net (qryRiverName name) = .error e2 →
      get_river_level net name (DateArg.str dateS) parameter resolution =
        (.error e2, [qryStationName name, qryRiverName name]))
    ∧ (∀ (net : Net) (name dateS parameter resolution m : String)
        (station : List (JSON × JSON)) (v : JSON),
      dateS.data.contains 'T' = false →
      first_hit net (qryStationName name) = .ok station →
      pyDictGet station (JSON.str "station_no") = some v →
      net (qryValues (pyStr v) parameter resolution dateS) = .transportError m →
      get_river_level net name (DateArg.str dateS) parameter resolution =
        (.error (.transportError m),
          [qryStationName name, qryValues (pyStr v) parameter resolution dateS]))
    ∧ (∀ (net : Net) (name dateS parameter resolution : String) (code : Nat)
        (body : JSON) (station : List (JSON × JSON)) (v : JSON),
      dateS.data.contains 'T' = false →
      first_hit net (qryStationName name) = .ok station →
      pyDictGet station (JSON.str "station_no") = some v →
      400 ≤ code → code < 600 →
      net (qryValues (pyStr v) parameter resolution dateS) = .status code body →
      get_river_level net name (DateArg.str dateS) parameter resolution =
        (.error (.httpError code),
          [qryStationName name, qryValues (pyStr v) parameter resolution dateS]))
    ∧ (∀ (net : Net) (name dateS parameter resolution : String) (e1 e : PyErr)
        (station : List (JSON × JSON)) (v : JSON),
      dateS.data.contains 'T' = false →
      first_hit net (qryStationName name) = .error e1 →
      isLookupError e1 = true →
      first_hit net (qryRiverName name) = .ok station →
      pyDictGet station (JSON.str "station_no") = some v →
      raise_for_status (net (qryValues (pyStr v) parameter resolution dateS)) =
        .error e →
      get_river_level net name (DateArg.str dateS) parameter resolution =
        (.error e,
          [qryStationName name, qryRiverName name,
            qryValues (pyStr v) parameter resolution dateS])) := by
  refine ⟨?_, ?_, ?_, ?_, ?_, ?_, ?_⟩
  · intro net url m h
    simp [first_hit, raise_for_status, h]
  · intro net url code body h4 h6 hs
    simp only [first_hit, raise_for_status, hs]
    rw [if_pos ⟨h4, h6⟩]
  · intro net name dateS parameter resolution e hT hfh hnl
    have hT2 : 'T' ∉ dateS.data := by simpa using hT
    unfold get_river_level
    simp [normalizeDateArg, hT2, hfh, hnl]
  · intro net name dateS parameter resolution e e2 hT h1 hl h2
    have hT2 : 'T' ∉ dateS.data := by simpa using hT
    unfold get_river_level
    simp [normalizeDateArg, hT2, h1, hl, h2]
  · intro net name dateS parameter resolution m station v hT h1 h3 hv
    have hT2 : 'T' ∉ dateS.data := by simpa using hT
    unfold get_river_level
    simp only [normalizeDateArg]
    rw [if_neg (by simp [hT2])]
    simp only [h1]
    unfold afterStation
    simp only [h3]
    simp [raise_for_status, hv]
  · intro net name dateS parameter resolution code body station v hT h1 h3 h4 h6 hv
    have hT2 : 'T' ∉ dateS.data := by simpa using hT
    unfold get_river_level
    simp only [normalizeDateArg]
    rw [if_neg (by simp [hT2])]
    simp only [h1]
    unfold afterStation
    simp only [h3, hv, raise_for_status]
    rw [if_pos ⟨h4, h6⟩]
    simp
  · intro net name dateS parameter resolution e1 e station v hT h1 hl h2 h3 hr
    have hT2 : 'T' ∉ dateS.data := by simpa using hT
    unfold get_river_level
    simp only [normalizeDateArg]
    rw [if_neg (by simp [hT2])]
    simp only [h1]
    rw [if_pos hl]
    simp only [h2]
    unfold afterStation
    simp only [h3, hr]
    simp

/-- Witness for C7: all seven scenarios at concrete oracles — a transport
failure and a 404 through `_first_hit`, a transport failure on the
`station_name` query (no fallback issued), a transport failure on the
`river_name` fallback query, a transport failure and a 503 status on the
values request after direct resolution, and a transport failure on the
values request after fallback resolution. -/
theorem c7_witness :
    first_hit c7net (qryStationName "Pitnacree") =
        .error (.transportError "connection refused") ∧
      first_hit (fun _ => HTTPResult.status 404 JSON.null) (qryStationName "Pitnacree") =
        .error (.httpError 404) ∧
      get_river_level c7net "Pitnacree" (DateArg.str "2024-01-01") "SG" "15m.Cmd" =
        (.error (.transportError "connection refused"), [qryStationName "Pitnacree"]) ∧
      get_river_level c7netFallbackDown "Pitnacree" (DateArg.str "2024-01-01")
          "SG" "15m.Cmd" =
        (.error (.transportError "connection refused"),
          [qryStationName "Pitnacree", qryRiverName "Pitnacree"]) ∧
      get_river_level c7netValuesDown "Pitnacree" (DateArg.str "2024-01-01")
          "SG" "15m.Cmd" =
        (.error (.transportError "connection reset"),
          [qryStationName "Pitnacree", qryValues "15006" "SG" "15m.Cmd" "2024-01-01"]) ∧
      get_river_level c7netValues503 "Pitnacree" (DateArg.str "2024-01-01")
          "SG" "15m.Cmd" =
        (.error (.httpError 503),
          [qryStationName "Pitnacree", qryValues "15006" "SG" "15m.Cmd" "2024-01-01"]) ∧
      get_river_level c7netFallbackValuesDown "Pitnacree" (DateArg.str "2024-01-01")
          "SG" "15m.Cmd" =
        (.error (.transportError "connection reset"),
          [qryStationName "Pitnacree", qryRiverName "Pitnacree",
            qryValues "15006" "SG" "15m.Cmd" "2024-01-01"]) :=
  ⟨c7_transport_http_surfaced.1 c7net _ _ rfl,
    c7_transport_http_surfaced.2.1 _ _ 404 JSON.null (by decide) (by decide) rfl,
    c7_transport_http_surfaced.2.2.1 c7net "Pitnacree" "2024-01-01" "SG" "15m.Cmd"
      (.transportError "connection refused") (by decide) rfl rfl,
    c7_transport_http_surfaced.2.2.2.1 c7netFallbackDown "Pitnacree" "2024-01-01"
      "SG" "15m.Cmd" (.lookupError noMatchMsg)
      (.transportError "connection refused") (by decide) rfl rfl rfl,
    c7_transport_http_surfaced.2.2.2.2.1 c7netValuesDown "Pitnacree" "2024-01-01"
      "SG" "15m.Cmd" "connection reset" c7station (JSON.str "15006")
      (by decide) rfl rfl rfl,
    c7_transport_http_surfaced.2.2.2.2.2.1 c7netValues503 "Pitnacree" "2024-01-01"
      "SG" "15m.Cmd" 503 JSON.null c7station (JSON.str "15006")
      (by decide) rfl rfl (by decide) (by decide) rfl,
    c7_transport_http_surfaced.2.2.2.2.2.2 c7netFallbackValuesDown "Pitnacree"
      "2024-01-01" "SG" "15m.Cmd" (.lookupError noMatchMsg)
      (.transportError "connection reset") c7station (JSON.str "15006")
      (by decide) rfl rfl rfl rfl rfl⟩

/-- C10: an `except LookupError` guards the `station_name` attempt, and
`_first_hit` raises both its "no matching records" and its row/header
mismatch condition as that same exception type, so a mismatch on the first
attempt also triggers the `river_name` fallback request. -/
theorem c10_fallback_on_any_lookup_error (net : Net)
    (name dateS parameter resolution : String)
    (hT : dateS.data.contains 'T' = false)
    (h1 : first_hit net (qryStationName name) = .error (.lookupError rowMismatchMsg)) :
    (∃ rest, (get_river_level net name (DateArg.str dateS) parameter resolution).2 =
        qryStationName name :: qryRiverName name :: rest)
    ∧ isLookupError (.lookupError rowMismatchMsg) = true
    ∧ isLookupError (.lookupError noMatchMsg) = true := by
  have hT2 : 'T' ∉ dateS.data := by simpa using hT
  refine ⟨?_, rfl, rfl⟩
  rcases h2 : first_hit net (qryRiverName name) with e2 | station
  · refine ⟨[], ?_⟩
    have h0 : get_river_level net name (DateArg.str dateS) parameter resolution =
        (.error e2, [qryStationName name, qryRiverName name]) := by
      unfold get_river_level
      simp [normalizeDateArg, hT2, h1, h2, isLookupError]
    rw [h0]
  · obtain ⟨tail, htail⟩ := afterStation_log net name dateS parameter resolution
      station [qryStationName name, qryRiverName name]
    refine ⟨tail, ?_⟩
    have h0 : get_river_level net name (DateArg.str dateS) parameter resolution =
        afterStation net name dateS parameter resolution station
          [qryStationName name, qryRiverName name] := by
      unfold get_river_level
      simp [normalizeDateArg, hT2, h1, h2, isLookupError]
    rw [h0, htail]
    rfl

/-- Witness for C10: a mismatched station-list body triggers the fallback
request. -/
theorem c10_witness :
    ∃ rest, (get_river_level c10net "Pitnacree" (DateArg.str "2024-01-01")
        "SG" "15m.Cmd").2 =
      qryStationName "Pitnacree" :: qryRiverName "Pitnacree" :: rest :=
  (c10_fallback_on_any_lookup_error c10net "Pitnacree" "2024-01-01" "SG" "15m.Cmd"
    (by decide) rfl).1

/-- A failed Python `len` is the no-len `TypeError`. -/
theorem pyLen_err (v : JSON) (e : PyErr) (h : pyLen v = .error e) :
    e = .typeError "object has no len" := by
  cases v <;> simp [pyLen] at h <;> exact h.symm

/-- C9: a values body that passes the structural check but whose record lacks
a `columns` field, or whose `columns` value is not a string, makes the parse
fail with an uncaught `KeyError` (resp. `AttributeError` from `.split`),
not with the "malformed response" condition. -/
theorem c9_missing_columns_not_malformed (name dateS : String) (raw dv : JSON)
    (kvs : List (String × JSON)) (hrec : valuesRec raw = some (dv, kvs)) :
    (pyObjGet kvs "columns" = none →
      parse_values name dateS raw = .error (.keyError "columns"))
    ∧ (∀ v, pyObjGet kvs "columns" = some v → (∀ s, v ≠ JSON.str s) →
      parse_values name dateS raw = .error (.attributeError "split")) := by
  constructor
  · intro hcols
    unfold parse_values
    simp only [hrec, hcols]
  · intro v hcols hns
    unfold parse_values
    -- the default arm of the columns match carries the side condition that
    -- the value is not a string, which is discharged by hns
    simp only [hrec, hcols]

/-- Witness for C9: both branches at concrete bodies. -/
theorem c9_witness :
    parse_values "Pitnacree" "2024-01-01" c9rawNoColumns =
        .error (.keyError "columns")
    ∧ parse_values "Pitnacree" "2024-01-01" c9rawNumColumns =
        .error (.attributeError "split") :=
  ⟨(c9_missing_columns_not_malformed "Pitnacree" "2024-01-01" c9rawNoColumns
      (JSON.arr []) [("data", JSON.arr [])] rfl).1 rfl,
    (c9_missing_columns_not_malformed "Pitnacree" "2024-01-01" c9rawNumColumns
      (JSON.arr []) [("columns", JSON.num 3), ("data", JSON.arr [])] rfl).2
      (JSON.num 3) rfl (fun _ hs => JSON.noConfusion hs)⟩

/-- C3 counterexample: a values response whose `data` array is empty but
which lacks a `columns` field fails with `KeyError("columns")`, not with the
"no data found" error, so the claim's universal statement fails as written. -/
theorem c3_counterexample :
    parse_values "Pitnacree" "2024-01-01" c3rawNoColumns =
        .error (.keyError "columns")
    ∧ PyErr.keyError "columns" ≠
        PyErr.lookupError (noDataValuesMsg "Pitnacree" "2024-01-01") :=
  ⟨rfl, by decide⟩

/-- C3 (amended): `get_river_level` never returns an empty table — every
successful call has at least one row and one index entry — and a values
response whose `data` array is empty *and whose `columns` field is a string*
fails with the "no data found" error. -/
theorem c3_no_empty_table :
    (∀ (net : Net) (name : String) (date : DateArg) (parameter resolution : String)
        (f : IndexedFrame) (log : List String),
      get_river_level net name date parameter resolution = (.ok f, log) →
      f.data ≠ [] ∧ f.index ≠ [])
    ∧ (∀ (name dateS : String) (raw : JSON) (kvs : List (String × JSON)) (cstr : String),
      valuesRec raw = some (JSON.arr [], kvs) →
      pyObjGet kvs "columns" = some (JSON.str cstr) →
      parse_values name dateS raw =
        .error (.lookupError (noDataValuesMsg name dateS))) := by
  constructor
  · intro net name date parameter resolution f log h
    obtain ⟨dateS, raw, hp⟩ :=
      get_river_level_ok_parse net name date parameter resolution f log h
    exact parse_values_ok_nonempty name dateS raw f hp
  · intro name dateS raw kvs cstr hrec hcols
    unfold parse_values
    simp only [hrec, hcols]
    have hmk : mkFrame (JSON.arr []) ((pySplitComma cstr).map pyStrip) =
        .ok ⟨(pySplitComma cstr).map pyStrip, []⟩ := rfl
    simp only [hmk]
    simp [Frame.isEmptyFrame]

/-- Witness for C3: a successful day fetch has nonempty data and index, and
the empty-`data` body with proper `columns` yields the no-data error. -/
theorem c3_witness :
    ((⟨["2024-01-01T00:00:00", "2024-01-01T00:15:00"], ["Value", "Quality Code"],
        [[JSON.num 10, JSON.str "G"], [JSON.num 11, JSON.str "G"]]⟩ :
          IndexedFrame).data ≠ [] ∧
      (⟨["2024-01-01T00:00:00", "2024-01-01T00:15:00"], ["Value", "Quality Code"],
        [[JSON.num 10, JSON.str "G"], [JSON.num 11, JSON.str "G"]]⟩ :
          IndexedFrame).index ≠ [])
    ∧ parse_values "Pitnacree" "2024-01-01" c3rawEmptyData =
        .error (.lookupError (noDataValuesMsg "Pitnacree" "2024-01-01")) :=
  ⟨c3_no_empty_table.1 c3net "Pitnacree" (DateArg.str "2024-01-01") "SG" "15m.Cmd"
      ⟨["2024-01-01T00:00:00", "2024-01-01T00:15:00"], ["Value", "Quality Code"],
        [[JSON.num 10, JSON.str "G"], [JSON.num 11, JSON.str "G"]]⟩
      [qryStationName "Pitnacree", qryValues "15006" "SG" "15m.Cmd" "2024-01-01"] rfl,
    c3_no_empty_table.2 "Pitnacree" "2024-01-01" c3rawEmptyData
      [("columns", JSON.str "Timestamp,Value,Quality Code"), ("data", JSON.arr [])]
      "Timestamp,Value,Quality Code" rfl rfl⟩

/-- C5: the `_first_hit` decoder fails with "no matching records" exactly
when the body is empty, not a list, has fewer than two elements, or its
first element is not a list; for a body with a header row and a sized first
data row it fails with the row/header-mismatch message exactly when the
lengths differ, and otherwise returns the header-to-first-row zip. -/
theorem c5_first_hit_decoder (data : JSON) :
    (decode_first_hit data = .error (.lookupError noMatchMsg) ↔
      c5NoMatchCond data = true)
    ∧ (∀ (header : List JSON) (first_row : JSON) (rest : List JSON) (n : Nat),
      data = JSON.arr (JSON.arr header :: first_row :: rest) →
      pyLen first_row = .ok n →
      ((n ≠ header.length →
          decode_first_hit data = .error (.lookupError rowMismatchMsg))
        ∧ (n = header.length →
          decode_first_hit data = .ok (header.zip (pyIter first_row))))) := by
  constructor
  · cases data with
    | null =>
        simp [decode_first_hit, c5NoMatchCond, specIsEmptyList, specIsList,
          specListLen, specFirstIsList]
    | bool b =>
        simp [decode_first_hit, c5NoMatchCond, specIsEmptyList, specIsList,
          specListLen, specFirstIsList]
    | num n =>
        simp [decode_first_hit, c5NoMatchCond, specIsEmptyList, specIsList,
          specListLen, specFirstIsList]
    | str s =>
        simp [decode_first_hit, c5NoMatchCond, specIsEmptyList, specIsList,
          specListLen, specFirstIsList]
    | obj kvs =>
        simp [decode_first_hit, c5NoMatchCond, specIsEmptyList, specIsList,
          specListLen, specFirstIsList]
    | arr xs =>
        cases xs with
        | nil =>
            simp [decode_first_hit, c5NoMatchCond, specIsEmptyList, specIsList,
              specListLen, specFirstIsList]
        | cons x rest =>
            cases rest with
            | nil =>
                cases x <;>
                  simp [decode_first_hit, c5NoMatchCond, specIsEmptyList,
                    specIsList, specListLen, specFirstIsList]
            | cons y rest2 =>
                cases x with
                | arr header =>
                    refine iff_of_false ?_ ?_
                    · intro h
                      rcases hl : pyLen y with e | n
                      · have he := pyLen_err y e hl
                        unfold decode_first_hit at h
                        simp only [hl, Except.error.injEq] at h
                        rw [he] at h
                        exact PyErr.noConfusion h
                      · unfold decode_first_hit at h
                        simp only [hl] at h
                        by_cases hne : n ≠ header.length
                        · rw [if_pos hne] at h
                          simp only [Except.error.injEq,
                            PyErr.lookupError.injEq] at h
                          exact rowMismatch_ne_noMatch h
                        · rw [if_neg hne] at h
                          exact Except.noConfusion h
                    · intro hcond
                      simp [c5NoMatchCond, specIsEmptyList, specIsList,
                        specListLen, specFirstIsList] at hcond
                      omega
                | null =>
                    simp [decode_first_hit, c5NoMatchCond, specIsEmptyList,
                      specIsList, specListLen, specFirstIsList]
                | bool b =>
                    simp [decode_first_hit, c5NoMatchCond, specIsEmptyList,
                      specIsList, specListLen, specFirstIsList]
                | num n =>
                    simp [decode_first_hit, c5NoMatchCond, specIsEmptyList,
                      specIsList, specListLen, specFirstIsList]
                | str s =>
                    simp [decode_first_hit, c5NoMatchCond, specIsEmptyList,
                      specIsList, specListLen, specFirstIsList]
                | obj kvs =>
                    simp [decode_first_hit, c5NoMatchCond, specIsEmptyList,
                      specIsList, specListLen, specFirstIsList]
  · intro header first_row rest n hdata hlen
    subst hdata
    constructor
    · intro hne
      unfold decode_first_hit
      simp only [hlen]
      rw [if_pos hne]
    · intro heq
      unfold decode_first_hit
      simp only [hlen]
      rw [if_neg (not_not_intro heq)]

/-- Witness for C5: an empty body, a well-formed body, and a mismatched body
at concrete inputs. -/
theorem c5_witness :
    decode_first_hit (JSON.arr []) = .error (.lookupError noMatchMsg)
    ∧ decode_first_hit (JSON.arr [JSON.arr [JSON.str "station_no"],
        JSON.arr [JSON.str "15006"], JSON.arr [JSON.str "16003"]]) =
      .ok [(JSON.str "station_no", JSON.str "15006")]
    ∧ decode_first_hit (JSON.arr [JSON.arr [JSON.str "a", JSON.str "b"],
        JSON.arr [JSON.str "x"]]) = .error (.lookupError rowMismatchMsg) :=
  ⟨(c5_first_hit_decoder (JSON.arr [])).1.mpr (by decide),
    ((c5_first_hit_decoder _).2 [JSON.str "station_no"]
      (JSON.arr [JSON.str "15006"]) [JSON.arr [JSON.str "16003"]] 1 rfl rfl).2 rfl,
    ((c5_first_hit_decoder _).2 [JSON.str "a", JSON.str "b"]
      (JSON.arr [JSON.str "x"]) [] 1 rfl rfl).1 (by decide)⟩

/-- C6: the values fetch fails with the "malformed response" condition
exactly when the body is empty, not a list, its first element is not a
record, or that record lacks a `data` field. -/
theorem c6_values_malformed_iff (name dateS : String) (raw : JSON) :
    parse_values name dateS raw =
        .error (.lookupError (malformedValuesMsg name dateS))
      ↔ c6MalformedCond raw = true := by
  constructor
  · intro h
    rw [← valuesRec_none_iff]
    rcases hrec : valuesRec raw with _ | ⟨dv, kvs⟩
    · rfl
    exfalso
    unfold parse_values at h
    simp only [hrec] at h
    rcases hcols : pyObjGet kvs "columns" with _ | v
    · simp only [hcols, Except.error.injEq] at h
      exact PyErr.noConfusion h
    simp only [hcols] at h
    cases v with
    | null => exact PyErr.noConfusion (Except.error.inj h)
    | bool b => exact PyErr.noConfusion (Except.error.inj h)
    | num n => exact PyErr.noConfusion (Except.error.inj h)
    | arr xs => exact PyErr.noConfusion (Except.error.inj h)
    | obj kvs2 => exact PyErr.noConfusion (Except.error.inj h)
    | str cstr =>
        rcases hmk : mkFrame dv ((pySplitComma cstr).map pyStrip) with e | df
        · simp only [hmk, Except.error.injEq] at h
          obtain ⟨m, hm⟩ := mkFrame_err _ _ _ hmk
          rw [hm] at h
          exact PyErr.noConfusion h
        simp only [hmk] at h
        by_cases hemp : df.isEmptyFrame = true
        · rw [if_pos hemp] at h
          simp only [Except.error.injEq, PyErr.lookupError.injEq] at h
          exact noData_ne_malformed name dateS h
        · rw [if_neg hemp] at h
          rcases setIndexTimestamp_err df _ h with ⟨k, hk⟩ | ⟨m, hm⟩
          · exact PyErr.noConfusion hk
          · exact PyErr.noConfusion hm
  · intro hc
    have hrec : valuesRec raw = none := (valuesRec_none_iff raw).mpr hc
    unfold parse_values
    simp only [hrec]

/-- C2 counterexample: with an upstream values response whose rows are out of
order and partly outside the requested day, the call still succeeds and its
index is exactly that out-of-order, out-of-window sequence — refuting the
claim that the index is always non-decreasing and within the requested day
regardless of the upstream row order and range. -/
theorem c2_counterexample :
    Except.map (fun f => f.index)
        (get_river_level c2net "Pitnacree" (DateArg.str "2024-01-01")
          "SG" "15m.Cmd").1 =
      .ok ["2024-01-01T10:00:00", "2023-06-15T12:00:00"]
    ∧ chronLe "2024-01-01T10:00:00" "2023-06-15T12:00:00" = false
    ∧ chronLe "2024-01-01T00:00:00" "2023-06-15T12:00:00" = false := by
  refine ⟨rfl, ?_, ?_⟩ <;> decide

/-- C2 (amended): a successful parse returns as its index exactly the
upstream `Timestamp` column in response order — no sorting and no filtering —
so the index is non-decreasing and inside `[date 00:00:00, date 23:59:59]`
precisely when the upstream rows already are (the request asks for that
window but the code does not enforce it). -/
theorem c2_index_is_upstream_order (name dateS : String) (raw : JSON)
    (f : IndexedFrame) (h : parse_values name dateS raw = .ok f) :
    rawTimestamps raw = some f.index := by
  unfold parse_values at h
  unfold rawTimestamps
  rcases hrec : valuesRec raw with _ | ⟨dv, kvs⟩
  · simp only [hrec] at h
    exact Except.noConfusion h
  simp only [hrec] at h ⊢
  rcases hcols : pyObjGet kvs "columns" with _ | v
  · simp only [hcols] at h
    exact Except.noConfusion h
  simp only [hcols] at h ⊢
  cases v with
  | null => exact Except.noConfusion h
  | bool b => exact Except.noConfusion h
  | num n => exact Except.noConfusion h
  | arr xs => exact Except.noConfusion h
  | obj kvs2 => exact Except.noConfusion h
  | str cstr =>
      rcases hmk : mkFrame dv ((pySplitComma cstr).map pyStrip) with e | df
      · simp only [hmk] at h
        exact Except.noConfusion h
      simp only [hmk] at h ⊢
      by_cases hemp : df.isEmptyFrame = true
      · rw [if_pos hemp] at h
        exact Except.noConfusion h
      rw [if_neg hemp] at h
      unfold setIndexTimestamp at h
      rcases hidx : df.columns.findIdx? (fun c => c == "Timestamp") with _ | i
      · simp only [hidx] at h
        exact Except.noConfusion h
      simp only [hidx] at h ⊢
      rcases htdc : to_datetime_column (df.data.map (fun r => r.getD i JSON.null))
          with e2 | ts
      · simp only [htdc] at h
        exact Except.noConfusion h
      simp only [htdc, Except.ok.injEq] at h ⊢
      subst h
      rfl

/-- Witness for C2 (amended): the out-of-order body parses successfully and
its index is the upstream column verbatim. -/
theorem c2_witness :
    rawTimestamps c2valuesBody =
      some ["2024-01-01T10:00:00", "2023-06-15T12:00:00"] :=
  c2_index_is_upstream_order "Pitnacree" "2024-01-01" c2valuesBody
    ⟨["2024-01-01T10:00:00", "2023-06-15T12:00:00"], ["Value", "Quality Code"],
      [[JSON.num 12, JSON.str "G"], [JSON.num 11, JSON.str "G"]]⟩ rfl

end River
